import Mathlib

/-!
Shallow embedding of the `file_path_from_id` crate (src/src/windows.rs,
src/src/unix.rs).  OS calls are modelled by an explicit environment (an
oracle describing what each OS primitive would answer) and a state that
tracks the OS handles currently open and the number of OS calls made.
Rust's `?` propagation is compiled to explicit matches, `todo!()` to a
`panic` outcome, and `fs::File`'s drop to an explicit handle close at the
point where Rust inserts the drop.
-/

/-- Model of `std::io::ErrorKind` restricted to the kinds this crate uses,
plus a catch-all for OS-supplied kinds. -/
inductive IoErrorKind where
  | notFound
  | outOfMemory
  | invalidData
  | permissionDenied
  | other
deriving Repr, DecidableEq

/-- Model of `std::io::Error`: an error kind together with its message. -/
structure IoError where
  kind : IoErrorKind
  msg : String
deriving Repr, DecidableEq

/-- Model of the `file_id` crate's `FileId` enum (integer widths relaxed to
`Nat`; only equality of the fields matters to this crate). -/
inductive FileId where
  | HighRes (volume_serial_number : Nat) (file_id : Nat)
  | LowRes (volume_serial_number : Nat) (file_index : Nat)
  | Inode (device_id : Nat) (inode_number : Nat)
deriving Repr, DecidableEq

namespace Windows

/-- Model of `windows::Error` (src/src/windows.rs lines 296-305). -/
inductive Error where
  | InvalidFileId
  | VolumeHandle (e : IoError)
  | FileInformationByHandle (e : IoError)
  | FindVolume (e : IoError)
  | VolumePathNames (e : IoError)
  | OpenFile (e : IoError)
  | FinalPathName (e : IoError)
deriving Repr, DecidableEq

/-- Outcome of a Rust function that may return `Ok`, return `Err`, or
panic (`todo!()` panics with message "not yet implemented"). -/
inductive Outcome (α : Type) where
  | ok (a : α)
  | err (e : Error)
  | panic (msg : String)
deriving Repr, DecidableEq

/-- What the object behind an open file handle is: a file opened by id on a
volume, or a caller-supplied already-open file (`path_from_file`). -/
inductive FileRef where
  | byId (volPath : List UInt16) (fid : Nat)
  | external (n : Nat)
deriving Repr, DecidableEq

/-- Kind of OS handle held open. -/
inductive HKind where
  | findVolume
  | volume (path : List UInt16)
  | file (ref : FileRef)
deriving Repr, DecidableEq

/-- OS-handle state: fresh-handle counter, the set of currently open
handles, and a count of OS calls made. -/
structure St where
  next : Nat
  openh : List (Nat × HKind)
  calls : Nat
deriving Repr, DecidableEq

/-- Allocate a fresh open handle. -/
def St.alloc (st : St) (k : HKind) : Nat × St :=
  (st.next, { next := st.next + 1, openh := (st.next, k) :: st.openh, calls := st.calls })

/-- Close a handle (models `CloseHandle` / `FindVolumeClose` / `fs::File` drop). -/
def St.close (st : St) (h : Nat) : St :=
  { st with openh := st.openh.filter (fun e => e.1 != h) }

/-- Record one OS call. -/
def St.tick (st : St) : St :=
  { st with calls := st.calls + 1 }

/-- Behavior of volume enumeration after the supplied volumes run out:
`FindNextVolumeW` returns 0 with `GetLastError() == ERROR_NO_MORE_FILES`,
or 0 with some other error. -/
inductive EnumEnd where
  | noMore
  | fail (e : IoError)

/-- Oracle describing what each Windows OS primitive answers during a call:
the volume names produced by `FindFirstVolumeW` / `FindNextVolumeW`, the
raw buffer and size written by `GetVolumePathNamesForVolumeNameW`, whether
`CreateFileW` on a mount path succeeds, the `VolumeSerialNumber` that
`GetFileInformationByHandleEx` reports for the volume opened at a mount
path, whether `OpenFileById` succeeds, and the size / buffer / last-error
produced by `GetFinalPathNameByHandleW`. -/
structure Env where
  findFirstVolume : Except IoError (List UInt16)
  nextVolumes : List (List UInt16)
  enumEnd : EnumEnd
  volumePathNamesBuf : List UInt16 → Except IoError (List UInt16 × Nat)
  createFile : List UInt16 → Except IoError Unit
  fileIdInfo : List UInt16 → Except IoError Nat
  openFileById : List UInt16 → Nat → Except IoError Unit
  finalPath : FileRef → Nat × List UInt16 × IoError

/-- Windows `MAX_PATH`. -/
def MAX_PATH : Nat := 260

/-- Model of `windows::get_volume_handle_from_path` (lines 264-294):
`CreateFileW` on the mount path; failure yields `Error::VolumeHandle`,
success yields a fresh open handle.  The source returns the raw `HANDLE`;
nothing ever closes it. -/
def get_volume_handle_from_path (env : Env) (path_name : List UInt16) (st : St) :
    Outcome Nat × St :=
  let st := st.tick
  match env.createFile path_name with
  | .error e => (.err (.VolumeHandle e), st)
  | .ok _ =>
    let (h, st) := st.alloc (.volume path_name)
    (.ok h, st)

/-- Model of `windows::get_volume_serial_number_from_path` (lines 237-262):
open a handle to the mount path, then `GetFileInformationByHandleEx` with
`FileIdInfo`.  The raw handle is not closed on any path, as in the source. -/
def get_volume_serial_number_from_path (env : Env) (path_name : List UInt16) (st : St) :
    Outcome Nat × St :=
  match get_volume_handle_from_path env path_name st with
  | (.err e, st) => (.err e, st)
  | (.panic m, st) => (.panic m, st)
  | (.ok _file_handle, st) =>
    let st := st.tick
    match env.fileIdInfo path_name with
    | .error e => (.err (.FileInformationByHandle e), st)
    | .ok sn => (.ok sn, st)

/-- Model of the buffer-splitting `while` loop of
`windows::get_volume_path_names` (lines 216-232): walk the buffer up to
`volume_paths_size`, cutting at null units; each completed path gets a
terminating null pushed back on. -/
def splitVolumePathsAux (buf : List UInt16) :
    Nat → Nat → List UInt16 → List (List UInt16) → List (List UInt16)
  | 0, _, _, acc => acc
  | remaining + 1, idx, cur, acc =>
    let c := buf.getD idx 0
    if c == 0 then
      if cur.length > 0 then
        splitVolumePathsAux buf remaining (idx + 1) [] (acc ++ [cur ++ [0]])
      else
        splitVolumePathsAux buf remaining (idx + 1) cur acc
    else
      splitVolumePathsAux buf remaining (idx + 1) (cur ++ [c]) acc

/-- Mount paths decoded from the raw buffer, as the source's loop does
(the `while idx < size` loop runs exactly `size` iterations, carried here
as structural fuel). -/
def splitVolumePaths (buf : List UInt16) (size : Nat) : List (List UInt16) :=
  splitVolumePathsAux buf size 0 [] []

/-- Model of `windows::get_volume_path_names` (lines 190-235):
`GetVolumePathNamesForVolumeNameW`, then the buffer-splitting loop. -/
def get_volume_path_names (env : Env) (volume_name : List UInt16) (st : St) :
    Outcome (List (List UInt16)) × St :=
  let st := st.tick
  match env.volumePathNamesBuf volume_name with
  | .error e => (.err (.VolumePathNames e), st)
  | .ok (buf, size) => (.ok (splitVolumePaths buf size), st)

/-- Model of the inner `for path_name in volume_path_names` loop of
`get_volume_path_name_from_serial_number` (lines 154-159): probe each mount
path's serial number; `some p` models the early `return Ok(path_name)`. -/
def checkPaths (env : Env) (serial_number : Nat) :
    List (List UInt16) → St → Outcome (Option (List UInt16)) × St
  | [], st => (.ok none, st)
  | p :: rest, st =>
    match get_volume_serial_number_from_path env p st with
    | (.err e, st) => (.err e, st)
    | (.panic m, st) => (.panic m, st)
    | (.ok sn, st) =>
      if sn == serial_number then (.ok (some p), st)
      else checkPaths env serial_number rest st

/-- Model of the `loop` of `get_volume_path_name_from_serial_number`
(lines 145-187): one iteration per volume name; on a serial match the
function returns the mount path without closing the find handle; when
`FindNextVolumeW` reports `ERROR_NO_MORE_FILES` the find handle is closed
and the not-found error is returned; any other enumeration failure returns
with the find handle still open. -/
def volumeLoop (env : Env) (serial_number : Nat) (find_handle : Nat)
    (volume_name : List UInt16) (rest : List (List UInt16)) (st : St) :
    Outcome (List UInt16) × St :=
  match get_volume_path_names env volume_name st with
  | (.err e, st) => (.err e, st)
  | (.panic m, st) => (.panic m, st)
  | (.ok volume_path_names, st) =>
    match checkPaths env serial_number volume_path_names st with
    | (.err e, st) => (.err e, st)
    | (.panic m, st) => (.panic m, st)
    | (.ok (some path_name), st) => (.ok path_name, st)
    | (.ok none, st) =>
      let st := st.tick
      match rest with
      | v :: vs => volumeLoop env serial_number find_handle v vs st
      | [] =>
        match env.enumEnd with
        | .fail e => (.err (.FindVolume e), st)
        | .noMore =>
          let st := (st.tick).close find_handle
          (.err (.FindVolume ⟨.notFound, "no volume matching the serial number"⟩), st)

/-- Model of `windows::get_volume_path_name_from_serial_number`
(lines 136-188): `FindFirstVolumeW` (failure: no handle is created and the
loop's invalid-handle check returns `Error::FindVolume`), then the loop. -/
def get_volume_path_name_from_serial_number (env : Env) (serial_number : Nat) (st : St) :
    Outcome (List UInt16) × St :=
  let st := st.tick
  match env.findFirstVolume with
  | .error e => (.err (.FindVolume e), st)
  | .ok volume_name =>
    let (fh, st) := st.alloc .findVolume
    volumeLoop env serial_number fh volume_name env.nextVolumes st

/-- An open `fs::File` in the model: its handle number and what it refers to. -/
structure WinFile where
  handle : Nat
  ref : FileRef
deriving Repr, DecidableEq

/-- Model of `windows::file_handle_from_id` (lines 70-132): `HighRes`
locates the volume, opens a volume handle (never closed, as in the source),
and calls `OpenFileById`; `LowRes` hits `todo!()`, which panics; `Inode`
returns `Error::InvalidFileId`. -/
def file_handle_from_id (env : Env) (file_id : FileId) (st : St) :
    Outcome WinFile × St :=
  match file_id with
  | .HighRes volume_serial_number fid =>
    match get_volume_path_name_from_serial_number env volume_serial_number st with
    | (.err e, st) => (.err e, st)
    | (.panic m, st) => (.panic m, st)
    | (.ok volume_path_name, st) =>
      match get_volume_handle_from_path env volume_path_name st with
      | (.err e, st) => (.err e, st)
      | (.panic m, st) => (.panic m, st)
      | (.ok _volume_handle, st) =>
        let st := st.tick
        match env.openFileById volume_path_name fid with
        | .error e => (.err (.OpenFile e), st)
        | .ok _ =>
          let (h, st) := st.alloc (.file (.byId volume_path_name fid))
          (.ok { handle := h, ref := .byId volume_path_name fid }, st)
  | .LowRes _ _ => (.panic "not yet implemented", st)
  | .Inode _ _ => (.err .InvalidFileId, st)

/-- Model of `String::from_utf16`: decode 16-bit units, pairing surrogates;
an unpaired surrogate makes decoding fail. -/
def utf16Decode : List UInt16 → Option (List Char)
  | [] => some []
  | u :: rest =>
    let n := u.toNat
    if n < 0xD800 || 0xDFFF < n then
      (utf16Decode rest).map (fun cs => Char.ofNat n :: cs)
    else if n < 0xDC00 then
      match rest with
      | [] => none
      | u2 :: rest2 =>
        let n2 := u2.toNat
        if 0xDC00 ≤ n2 && n2 ≤ 0xDFFF then
          (utf16Decode rest2).map (fun cs =>
            Char.ofNat (0x10000 + (n - 0xD800) * 0x400 + (n2 - 0xDC00)) :: cs)
        else none
    else none

/-- The first `size` units of the zero-initialized `[0; MAX_PATH]` buffer
after the OS wrote `buf` into it (`path.into_iter().take(size)`). -/
def takeBuffer (buf : List UInt16) (size : Nat) : List UInt16 :=
  (List.range size).map (fun i => buf.getD i 0)

/-- Model of `windows::path_from_handle` (lines 25-66):
`GetFinalPathNameByHandleW` into a `MAX_PATH` buffer; 0 means failure with
the OS error; a size above `MAX_PATH` means the capacity error carrying
both sizes; otherwise the first `size` units are decoded as UTF-16,
failing with the fixed decode error when invalid. -/
def path_from_handle (env : Env) (file : WinFile) (st : St) : Outcome String × St :=
  let st := st.tick
  match env.finalPath file.ref with
  | (size, buf, lastErr) =>
    if size == 0 then (.err (.FinalPathName lastErr), st)
    else if MAX_PATH < size then
      (.err (.FinalPathName
        ⟨.outOfMemory,
          s!"path buffer requires {size} bytes but only {MAX_PATH} were allocated"⟩), st)
    else
      match utf16Decode (takeBuffer buf size) with
      | none => (.err (.FinalPathName ⟨.invalidData, "could not decode path"⟩), st)
      | some chars => (.ok (String.mk chars), st)

/-- Model of `windows::path_from_id` (lines 13-16): open the file by id,
query its final path, and drop the `fs::File` (closing the target handle)
at end of scope on both result paths. -/
def path_from_id (env : Env) (id : FileId) (st : St) : Outcome String × St :=
  match file_handle_from_id env id st with
  | (.err e, st) => (.err e, st)
  | (.panic m, st) => (.panic m, st)
  | (.ok file, st) =>
    match path_from_handle env file st with
    | (r, st) => (r, st.close file.handle)

/-- Model of `windows::path_from_file` (lines 19-21): the final-path query
on a caller-supplied borrowed handle, which is not closed. -/
def path_from_file (env : Env) (file : WinFile) (st : St) : Outcome String × St :=
  path_from_handle env file st

end Windows

/-- Whitespace test for the model of `str::trim` (the characters relevant
to this crate's output format). -/
def isWsChar (c : Char) : Bool :=
  c == ' ' || c == '\t' || c == '\n' || c == '\r'

/-- Model of `str::trim`: strip leading and trailing whitespace. -/
def trimChars (l : List Char) : List Char :=
  ((l.dropWhile isWsChar).reverse.dropWhile isWsChar).reverse

/-- Model of `str::trim_matches(m)`: strip every leading and trailing
occurrence of `m`. -/
def trimMatchesChar (m : Char) (l : List Char) : List Char :=
  ((l.dropWhile (· == m)).reverse.dropWhile (· == m)).reverse

/-- Model of `str::split_once` with a single-character pattern: split at
the first occurrence, or `none` when absent. -/
def splitOnceChar (sep : Char) : List Char → Option (List Char × List Char)
  | [] => none
  | x :: xs =>
    if x == sep then some ([], xs)
    else (splitOnceChar sep xs).map (fun p => (x :: p.1, p.2))

/-- Helper loop for `splitOnChar`. -/
def splitOnCharAux (sep : Char) : List Char → List Char → List (List Char)
  | [], cur => [cur.reverse]
  | x :: xs, cur =>
    if x == sep then cur.reverse :: splitOnCharAux sep xs []
    else splitOnCharAux sep xs (x :: cur)

/-- Model of `str::split` with a single-character pattern, keeping empty
segments, as `output.split("\n")` does. -/
def splitOnChar (sep : Char) (l : List Char) : List (List Char) :=
  splitOnCharAux sep l []

/-- Continuation-byte test for the UTF-8 decoder. -/
def utf8Cont (n : Nat) : Bool := 0x80 ≤ n && n < 0xC0

/-- Fuelled worker for `utf8Decode`; the fuel starts at the byte count and
each step consumes at least one byte, so it never runs out spuriously. -/
def utf8DecodeAux : Nat → List UInt8 → Option (List Char)
  | _, [] => some []
  | 0, _ :: _ => none
  | fuel + 1, b :: bs =>
    let n := b.toNat
    if n < 0x80 then (utf8DecodeAux fuel bs).map (fun cs => Char.ofNat n :: cs)
    else if n < 0xC2 then none
    else if n < 0xE0 then
      match bs with
      | b1 :: bs1 =>
        if utf8Cont b1.toNat then
          (utf8DecodeAux fuel bs1).map (fun cs =>
            Char.ofNat ((n - 0xC0) * 0x40 + (b1.toNat - 0x80)) :: cs)
        else none
      | [] => none
    else if n < 0xF0 then
      match bs with
      | b1 :: b2 :: bs2 =>
        if utf8Cont b1.toNat && utf8Cont b2.toNat then
          let v := (n - 0xE0) * 0x1000 + (b1.toNat - 0x80) * 0x40 + (b2.toNat - 0x80)
          if v < 0x800 || (0xD800 ≤ v && v ≤ 0xDFFF) then none
          else (utf8DecodeAux fuel bs2).map (fun cs => Char.ofNat v :: cs)
        else none
      | _ => none
    else if n < 0xF5 then
      match bs with
      | b1 :: b2 :: b3 :: bs3 =>
        if utf8Cont b1.toNat && utf8Cont b2.toNat && utf8Cont b3.toNat then
          let v := (n - 0xF0) * 0x40000 + (b1.toNat - 0x80) * 0x1000
            + (b2.toNat - 0x80) * 0x40 + (b3.toNat - 0x80)
          if v < 0x10000 || 0x10FFFF < v then none
          else (utf8DecodeAux fuel bs3).map (fun cs => Char.ofNat v :: cs)
        else none
      | _ => none
    else none

/-- Model of `String::from_utf8` validation: strict UTF-8 decoding of a
byte vector, `none` on invalid input. -/
def utf8Decode (l : List UInt8) : Option (List Char) :=
  utf8DecodeAux l.length l

/-- Bytes of an ASCII string, for building concrete subprocess outputs. -/
def asciiBytes (s : String) : List UInt8 :=
  s.data.map (fun c => UInt8.ofNat c.toNat)

namespace Unix

/-- Model of `std::process::Output`: exit status, captured stdout bytes,
captured stderr bytes. -/
structure Output where
  status : Int
  stdout : List UInt8
  stderr : List UInt8
deriving Repr, DecidableEq

/-- Oracle for the Unix resolver: what `Command::new("sh").arg("-c")
.arg(cmd).output()` produces for a given command string `cmd`. -/
structure Env where
  runSh : String → Except IoError Output

/-- Model of `unix::Error` (src/src/unix.rs lines 48-54); the
`FromUtf8Error` payload is modelled by the undecodable bytes it holds. -/
inductive Error where
  | InvalidFileId
  | Command (e : IoError)
  | Decode (bytes : List UInt8)
  | NoFileInfo
deriving Repr, DecidableEq

/-- Model of the `for line in output.split("\n")` loop of
`unix::get_path_from_id` (lines 33-45): lines without a colon are skipped;
the first line whose trimmed key is `directory` or `file` returns the
value trimmed and quote-stripped; otherwise `Error::NoFileInfo`. -/
def findInfo : List (List Char) → Except Error String
  | [] => .error .NoFileInfo
  | line :: rest =>
    match splitOnceChar ':' line with
    | none => findInfo rest
    | some (key, value) =>
      let key := trimChars key
      if key == "directory".data || key == "file".data then
        .ok (String.mk (trimMatchesChar '"' (trimChars value)))
      else findInfo rest

/-- Model of `unix::get_path_from_id` (lines 18-46): run the lookup
utility through `sh -c`, decode its stdout as UTF-8, and scan the lines.
The exit status and stderr of the subprocess are never consulted. -/
def get_path_from_id (env : Env) (device_id : Nat) (inode_number : Nat) :
    Except Error String :=
  match env.runSh s!"getfileinfo /.vol/{device_id}/{inode_number}" with
  | .error err => .error (.Command err)
  | .ok output =>
    match utf8Decode output.stdout with
    | none => .error (.Decode output.stdout)
    | some chars => findInfo (splitOnChar '\n' chars)

/-- Model of `unix::path_from_id` (lines 7-15): dispatch on the variant;
anything but `Inode` is `Error::InvalidFileId`. -/
def path_from_id (env : Env) (id : FileId) : Except Error String :=
  match id with
  | .Inode device_id inode_number => get_path_from_id env device_id inode_number
  | _ => .error .InvalidFileId

/-- Modelled from the spec: whether a line is an information line, that
is, it splits as `key: value` and its trimmed key is exactly `directory`
or `file`. -/
def lineInfoKey (line : List Char) : Bool :=
  match splitOnceChar ':' line with
  | none => false
  | some (key, _) =>
    trimChars key == "directory".data || trimChars key == "file".data

/-- Modelled from the spec: the path carried by an information line — the
value with surrounding whitespace and then surrounding quotes stripped. -/
def lineInfoValue (line : List Char) : String :=
  match splitOnceChar ':' line with
  | none => ""
  | some (_, value) => String.mk (trimMatchesChar '"' (trimChars value))

/-- Modelled from the spec: the first information line yields the path;
when no line of the output matches, the no-file-info error results. -/
def specParse (lines : List (List Char)) : Except Error String :=
  match lines.find? lineInfoKey with
  | some line => .ok (lineInfoValue line)
  | none => .error .NoFileInfo

/-- Result of a successful spawn as a function of the stdout bytes alone:
decode then scan.  `get_path_from_id` factors through this, which is the
sense in which the exit status is ignored. -/
def parseStdout (bytes : List UInt8) : Except Error String :=
  match utf8Decode bytes with
  | none => .error (.Decode bytes)
  | some chars => findInfo (splitOnChar '\n' chars)

end Unix

deriving instance DecidableEq for Except

/-- Initial handle state: no handles open, no OS calls made. -/
def st0 : Windows.St := ⟨0, [], 0⟩

/-- A caller-supplied already-open file, for `path_from_file`. -/
def f0 : Windows.WinFile := ⟨0, .external 0⟩

/-- Placeholder OS error used where a fixture's answer is irrelevant. -/
def ioDummy : IoError := ⟨.other, ""⟩

/-- Fixture environment in which every OS call fails. -/
def envTriv : Windows.Env where
  findFirstVolume := .error ioDummy
  nextVolumes := []
  enumEnd := .noMore
  volumePathNamesBuf := fun _ => .error ioDummy
  createFile := fun _ => .error ioDummy
  fileIdInfo := fun _ => .error ioDummy
  openFileById := fun _ _ => .error ioDummy
  finalPath := fun _ => (0, [], ioDummy)

/-- Fixture: one volume, mounted at `C:\` (units `[67, 58, 92, 0]`), with
serial number 7; opening by id succeeds and the final path is `C:\`. -/
def envC1 : Windows.Env where
  findFirstVolume := .ok [86]
  nextVolumes := []
  enumEnd := .noMore
  volumePathNamesBuf := fun _ => .ok ([67, 58, 92, 0], 4)
  createFile := fun _ => .ok ()
  fileIdInfo := fun _ => .ok 7
  openFileById := fun _ _ => .ok ()
  finalPath := fun _ => (3, [67, 58, 92], ioDummy)

/-- Claim C1 (code bug): the spec promises that every OS handle opened by
the resolver is released before the call returns, but the source never
calls `CloseHandle` on the `CreateFileW` volume handles and skips
`FindVolumeClose` on every exit except enumeration exhaustion.  On a
successful resolution over one volume, three handles remain open after the
call: the serial-probe volume handle, the open-by-id volume handle, and
the find-volume handle; only the target file handle (an `fs::File`) was
closed. -/
theorem c1_leak_eval :
    (Windows.path_from_id envC1 (FileId.HighRes 7 9) st0).1 = .ok "C:\\"
    ∧ (Windows.path_from_id envC1 (FileId.HighRes 7 9) st0).2.openh =
        [(2, .volume [67, 58, 92, 0]), (1, .volume [67, 58, 92, 0]), (0, .findVolume)] := by
  constructor <;> decide

/-- Claim C2 (amended): for every `LowRes` id the Windows resolver fails
immediately and explicitly — by hitting `todo!()` and panicking with
"not yet implemented" rather than returning an error value — with the
handle state untouched and no OS call performed, so it never resolves and
never returns a wrong answer. -/
theorem c2_lowres_panics (env : Windows.Env) (sn ix : Nat) (st : Windows.St) :
    Windows.path_from_id env (FileId.LowRes sn ix) st = (.panic "not yet implemented", st) :=
  rfl

/-- Claim C2 counterexample: on the concrete id `LowRes 1 2` the Windows
resolver panics; it does not return the distinct "unsupported" error value
the claim describes — no `err` outcome is produced at all. -/
theorem c2_counterexample :
    Windows.path_from_id envTriv (FileId.LowRes 1 2) st0 = (.panic "not yet implemented", st0)
    ∧ ¬ ∃ e, (Windows.path_from_id envTriv (FileId.LowRes 1 2) st0).1 = .err e :=
  ⟨rfl, fun ⟨_, h⟩ => nomatch h⟩

/-- Claim C3: a variant foreign to a resolver — `Inode` for the Windows
resolver, `HighRes` or `LowRes` for the Unix resolver — fails with the
invalid-file-id error; the Windows handle state is returned untouched and
both results are independent of the environment, i.e. no OS call is
performed. -/
theorem c3_variant_rejection (wenv : Windows.Env) (uenv : Unix.Env)
    (d i sn fi ix : Nat) (st : Windows.St) :
    Windows.path_from_id wenv (FileId.Inode d i) st = (.err .InvalidFileId, st)
    ∧ Unix.path_from_id uenv (FileId.HighRes sn fi) = .error .InvalidFileId
    ∧ Unix.path_from_id uenv (FileId.LowRes sn ix) = .error .InvalidFileId :=
  ⟨rfl, rfl, rfl⟩

/-- State left by `path_from_handle`: exactly one OS call is recorded and
no handle is opened or closed, whatever the outcome. -/
theorem path_from_handle_snd (env : Windows.Env) (f : Windows.WinFile) (st : Windows.St) :
    (Windows.path_from_handle env f st).2 = st.tick := by
  unfold Windows.path_from_handle
  rcases env.finalPath f.ref with ⟨size, buf, lastErr⟩
  dsimp only
  split
  · rfl
  · split
    · rfl
    · split <;> rfl

/-- Claim C8: `path_from_file` is exactly the final-path primitive
`path_from_handle` (one OS call, no handle opened or closed), and the
value returned by `path_from_id` is the composition of `file_handle_from_id`
with that same primitive. -/
theorem c8_composition (env : Windows.Env) (id : FileId) (f : Windows.WinFile)
    (st : Windows.St) :
    Windows.path_from_file env f st = Windows.path_from_handle env f st
    ∧ (Windows.path_from_file env f st).2 = st.tick
    ∧ (Windows.path_from_id env id st).1 =
        (match Windows.file_handle_from_id env id st with
         | (.ok file, st2) => (Windows.path_from_handle env file st2).1
         | (.err e, _) => .err e
         | (.panic m, _) => .panic m) := by
  refine ⟨rfl, path_from_handle_snd env f st, ?_⟩
  unfold Windows.path_from_id
  rcases Windows.file_handle_from_id env id st with ⟨r, st2⟩
  cases r with
  | ok file =>
    rcases Windows.path_from_handle env file st2 with ⟨r2, st3⟩
    rfl
  | err e => rfl
  | panic m => rfl

section
open Windows

/-- Fixture: the final-path query reports a required size of 300 units,
above `MAX_PATH`. -/
def envBig : Windows.Env :=
  { envTriv with finalPath := fun _ => (300, [], ioDummy) }

/-- Fixture: the final-path query succeeds with one unit that is a lone
UTF-16 surrogate, so decoding the returned buffer fails. -/
def envSur : Windows.Env :=
  { envTriv with finalPath := fun _ => (1, [0xD800], ioDummy) }

/-- Fixture: the final-path query itself fails, and the OS-supplied error
happens to carry the same kind and message as the resolver's own decode
error. -/
def envC7os : Windows.Env :=
  { envTriv with finalPath := fun _ => (0, [], ⟨.invalidData, "could not decode path"⟩) }

/-- Unfolding of `path_from_handle` under a known final-path answer. -/
theorem path_from_handle_body (env : Windows.Env) (f : Windows.WinFile) (st : Windows.St)
    (size : Nat) (buf : List UInt16) (e : IoError)
    (h : env.finalPath f.ref = (size, buf, e)) :
    path_from_handle env f st =
      (if (size == 0) = true then (.err (.FinalPathName e), st.tick)
       else if MAX_PATH < size then
        (.err (.FinalPathName
          ⟨.outOfMemory,
            s!"path buffer requires {size} bytes but only {MAX_PATH} were allocated"⟩), st.tick)
       else
        match utf16Decode (takeBuffer buf size) with
        | none => (.err (.FinalPathName ⟨.invalidData, "could not decode path"⟩), st.tick)
        | some chars => (.ok (String.mk chars), st.tick)) := by
  unfold path_from_handle
  rw [h]

/-- Capacity branch of `path_from_handle`: a required size above
`MAX_PATH` yields the fixed capacity error naming both sizes. -/
theorem path_from_handle_capacity (env : Windows.Env) (f : Windows.WinFile) (st : Windows.St)
    (size : Nat) (buf : List UInt16) (e : IoError)
    (h : env.finalPath f.ref = (size, buf, e)) (hlt : MAX_PATH < size) :
    (path_from_handle env f st).1 = .err (.FinalPathName
      ⟨.outOfMemory, s!"path buffer requires {size} bytes but only {MAX_PATH} were allocated"⟩) := by
  have h0 : ¬ ((size == 0) = true) := by simp; omega
  rw [path_from_handle_body env f st size buf e h, if_neg h0, if_pos hlt]

/-- Decode branch of `path_from_handle`: an undecodable returned buffer
yields the fixed decode error. -/
theorem path_from_handle_decode_fail (env : Windows.Env) (f : Windows.WinFile) (st : Windows.St)
    (size : Nat) (buf : List UInt16) (e : IoError)
    (h : env.finalPath f.ref = (size, buf, e)) (hne : size ≠ 0) (hle : size ≤ MAX_PATH)
    (hdec : utf16Decode (takeBuffer buf size) = none) :
    (path_from_handle env f st).1 =
      .err (.FinalPathName ⟨.invalidData, "could not decode path"⟩) := by
  have h0 : ¬ ((size == 0) = true) := by simp [hne]
  have h1 : ¬ (MAX_PATH < size) := by omega
  rw [path_from_handle_body env f st size buf e h, if_neg h0, if_neg h1, hdec]

/-- Claim C6: when the OS reports a required final-path size above the
fixed `MAX_PATH` buffer, the call fails with the capacity error whose
message carries both the required and the available size (no path, hence
no truncated path, is returned); and when the returned buffer does not
decode as UTF-16, the call fails with the decode error. -/
theorem c6_capacity_and_decode (env : Windows.Env) (f : Windows.WinFile) (st : Windows.St)
    (size : Nat) (buf : List UInt16) (e : IoError)
    (h : env.finalPath f.ref = (size, buf, e)) :
    (MAX_PATH < size →
      (path_from_handle env f st).1 = .err (.FinalPathName
        ⟨.outOfMemory, s!"path buffer requires {size} bytes but only {MAX_PATH} were allocated"⟩))
    ∧ (size ≠ 0 → size ≤ MAX_PATH → utf16Decode (takeBuffer buf size) = none →
      (path_from_handle env f st).1 =
        .err (.FinalPathName ⟨.invalidData, "could not decode path"⟩)) :=
  ⟨path_from_handle_capacity env f st size buf e h,
   path_from_handle_decode_fail env f st size buf e h⟩

/-- Claim C6 witness: a required size of 300 yields the capacity error
naming 300 and 260, and a lone-surrogate buffer yields the decode error. -/
theorem c6_capacity_and_decode_witness :
    MAX_PATH < 300
    ∧ (path_from_handle envBig f0 st0).1 = .err (.FinalPathName
        ⟨.outOfMemory, "path buffer requires 300 bytes but only 260 were allocated"⟩)
    ∧ utf16Decode (takeBuffer [0xD800] 1) = none
    ∧ (path_from_handle envSur f0 st0).1 =
        .err (.FinalPathName ⟨.invalidData, "could not decode path"⟩) := by
  refine ⟨by decide, ?_, by decide, ?_⟩
  · exact ((c6_capacity_and_decode envBig f0 st0 300 [] ioDummy rfl).1 (by decide)).trans
      (by decide)
  · exact (c6_capacity_and_decode envSur f0 st0 1 [0xD800] ioDummy rfl).2
      (by decide) (by decide) (by decide)

/-- Claim C7 counterexample: a decode failure and a transient OS failure
of the same final-path call produce literally equal error values — both
`FinalPathName` with kind `invalidData` and message "could not decode
path" — although the two runs fail for different reasons (`envSur` returns
size 1 with an undecodable buffer; `envC7os` returns size 0, the OS-call
failure, with that error as `last_os_error`).  The decode failure is thus
not a distinguishable error kind: it is coerced into the variant that also
carries the per-OS-call failure. -/
theorem c7_counterexample :
    (path_from_handle envSur f0 st0).1 = (path_from_handle envC7os f0 st0).1
    ∧ (path_from_handle envSur f0 st0).1 =
        .err (.FinalPathName ⟨.invalidData, "could not decode path"⟩)
    ∧ envSur.finalPath f0.ref ≠ envC7os.finalPath f0.ref := by
  refine ⟨by decide, by decide, by decide⟩

/-- Fixture: enumeration yields one volume with no mount paths and then
exhausts; the final-path query returns an undecodable lone surrogate. -/
def envC7w : Windows.Env where
  findFirstVolume := .ok [86]
  nextVolumes := []
  enumEnd := .noMore
  volumePathNamesBuf := fun _ => .ok ([], 0)
  createFile := fun _ => .error ioDummy
  fileIdInfo := fun _ => .error ioDummy
  openFileById := fun _ _ => .error ioDummy
  finalPath := fun _ => (1, [0xD800], ioDummy)

/-- Claim C7 (amended): every failing call returns a member of the closed
per-platform error enumeration whose variants name the failing OS call,
with `InvalidFileId` a variant of its own distinct from the wrapped ones;
but on Windows the not-found, capacity, and decode classes are not
variants of their own: exhaustion is the `FindVolume` variant with a fixed
`notFound` payload and a decode failure is the `FinalPathName` variant
with a fixed `invalidData` payload, so these classes are distinguishable
from a transient OS failure of the same call only through the wrapped io
error, which an OS-supplied error value can in principle equal. -/
theorem c7_error_taxonomy (env : Windows.Env) (t d i : Nat) (st : Windows.St)
    (f : Windows.WinFile) (size : Nat) (buf bufx v0 : List UInt16) (e : IoError) :
    (path_from_id env (FileId.Inode d i) st).1 = .err .InvalidFileId
    ∧ (∀ e1 e2 : IoError, Error.InvalidFileId ≠ .FindVolume e1
        ∧ Error.InvalidFileId ≠ .FinalPathName e1
        ∧ Error.FindVolume e1 ≠ .FinalPathName e2)
    ∧ (env.findFirstVolume = .ok v0 → env.nextVolumes = [] →
        env.volumePathNamesBuf v0 = .ok (bufx, 0) → env.enumEnd = .noMore →
        (get_volume_path_name_from_serial_number env t st).1 =
          .err (.FindVolume ⟨.notFound, "no volume matching the serial number"⟩))
    ∧ (env.finalPath f.ref = (size, buf, e) → size ≠ 0 → size ≤ MAX_PATH →
        utf16Decode (takeBuffer buf size) = none →
        (path_from_handle env f st).1 =
          .err (.FinalPathName ⟨.invalidData, "could not decode path"⟩)) := by
  refine ⟨rfl, fun e1 e2 => ⟨by simp, by simp, by simp⟩, ?_,
    path_from_handle_decode_fail env f st size buf e⟩
  intro h1 h2 h3 h4
  unfold get_volume_path_name_from_serial_number
  rw [h1, h2]
  unfold volumeLoop
  unfold get_volume_path_names
  rw [h3]
  dsimp only [splitVolumePaths, splitVolumePathsAux, checkPaths]
  rw [h4]

/-- Claim C7 witness: in the fixture environment the exhaustion case
produces the fixed `FindVolume`-not-found value and the decode case the
fixed `FinalPathName`-invalid-data value. -/
theorem c7_error_taxonomy_witness :
    (get_volume_path_name_from_serial_number envC7w 5 st0).1 =
        .err (.FindVolume ⟨.notFound, "no volume matching the serial number"⟩)
    ∧ (path_from_handle envC7w f0 st0).1 =
        .err (.FinalPathName ⟨.invalidData, "could not decode path"⟩) :=
  ⟨(c7_error_taxonomy envC7w 5 0 0 st0 f0 1 [0xD800] [] [86] ioDummy).2.2.1
      rfl rfl rfl rfl,
   (c7_error_taxonomy envC7w 5 0 0 st0 f0 1 [0xD800] [] [86] ioDummy).2.2.2
      rfl (by decide) (by decide) (by decide)⟩

end

/-- Fixture: the subprocess spawns, exits with failure status 1, and
prints nothing. -/
def envFail : Unix.Env := ⟨fun _ => .ok ⟨1, [], []⟩⟩

/-- Claim C9: for every subprocess that spawns successfully, the Unix
resolver's result is a function of the captured stdout bytes alone — the
exit status and stderr are never consulted — and empty stdout parses to
the no-file-info error, so a failed run with empty output is reported as
`NoFileInfo`, not as a process-failure error. -/
theorem c9_status_ignored (env : Unix.Env) (d i : Nat) (out : Unix.Output)
    (h : env.runSh s!"getfileinfo /.vol/{d}/{i}" = .ok out) :
    Unix.get_path_from_id env d i = Unix.parseStdout out.stdout
    ∧ Unix.parseStdout [] = .error .NoFileInfo := by
  refine ⟨?_, rfl⟩
  unfold Unix.get_path_from_id Unix.parseStdout
  rw [h]

/-- Claim C9 witness: a run that exits with status 1 and empty stdout is
reported as `NoFileInfo`. -/
theorem c9_status_ignored_witness :
    envFail.runSh "getfileinfo /.vol/3/4" = .ok ⟨1, [], []⟩
    ∧ Unix.get_path_from_id envFail 3 4 = .error .NoFileInfo := by
  refine ⟨rfl, ?_⟩
  rw [(c9_status_ignored envFail 3 4 ⟨1, [], []⟩ rfl).1]
  decide

/-- Sequential line scan of the source equals the spec's "first matching
line" formulation. -/
theorem findInfo_eq_specParse : ∀ lines, Unix.findInfo lines = Unix.specParse lines := by
  intro lines
  induction lines with
  | nil => rfl
  | cons line rest ih =>
    cases hsp : splitOnceChar ':' line with
    | none =>
      have hk : ¬ (Unix.lineInfoKey line = true) := by
        simp [Unix.lineInfoKey, hsp]
      have h1 : Unix.findInfo (line :: rest) = Unix.findInfo rest := by
        simp only [Unix.findInfo, hsp]
      have h2 : Unix.specParse (line :: rest) = Unix.specParse rest := by
        unfold Unix.specParse
        rw [List.find?_cons_of_neg _ hk]
      rw [h1, h2, ih]
    | some kv =>
      obtain ⟨key, value⟩ := kv
      by_cases hkey : (trimChars key == "directory".data || trimChars key == "file".data) = true
      · have hk : Unix.lineInfoKey line = true := by
          simp only [Unix.lineInfoKey, hsp]
          exact hkey
        have h1 : Unix.findInfo (line :: rest) =
            .ok (String.mk (trimMatchesChar '"' (trimChars value))) := by
          simp only [Unix.findInfo, hsp]
          exact if_pos hkey
        have h2 : Unix.specParse (line :: rest) = .ok (Unix.lineInfoValue line) := by
          unfold Unix.specParse
          rw [List.find?_cons_of_pos _ hk]
        have hv : Unix.lineInfoValue line =
            String.mk (trimMatchesChar '"' (trimChars value)) := by
          simp only [Unix.lineInfoValue, hsp]
        rw [h1, h2, hv]
      · have hk : ¬ (Unix.lineInfoKey line = true) := by
          simp only [Unix.lineInfoKey, hsp]
          exact hkey
        have h1 : Unix.findInfo (line :: rest) = Unix.findInfo rest := by
          simp only [Unix.findInfo, hsp]
          exact if_neg hkey
        have h2 : Unix.specParse (line :: rest) = Unix.specParse rest := by
          unfold Unix.specParse
          rw [List.find?_cons_of_neg _ hk]
        rw [h1, h2, ih]

/-- Claim C5: for every captured stdout that decodes to text, the Unix
resolver's result equals the spec-side parse: split the text at newlines,
return the value (whitespace- then quote-stripped) of the first line that
splits as `key: value` with trimmed key exactly `directory` or `file`,
and fail with the no-file-info error when no line matches. -/
theorem c5_line_parsing (env : Unix.Env) (d i : Nat) (out : Unix.Output) (chars : List Char)
    (h1 : env.runSh s!"getfileinfo /.vol/{d}/{i}" = .ok out)
    (h2 : utf8Decode out.stdout = some chars) :
    Unix.get_path_from_id env d i = Unix.specParse (splitOnChar '\n' chars) := by
  unfold Unix.get_path_from_id
  rw [h1]
  dsimp only
  rw [h2]
  exact findInfo_eq_specParse _

/-- Fixture: subprocess output whose stdout is a non-matching line
followed by a quoted `directory` line. -/
def outC5 : Unix.Output :=
  ⟨0, asciiBytes "x: 1\ndirectory: \"/tmp/foo\"\n", []⟩

/-- Fixture environment returning `outC5` for any command. -/
def envC5 : Unix.Env := ⟨fun _ => .ok outC5⟩

/-- Claim C5 witness: the fixture output decodes, the resolver agrees with
the spec-side parse on it, and both produce `/tmp/foo`. -/
theorem c5_line_parsing_witness :
    utf8Decode outC5.stdout = some ("x: 1\ndirectory: \"/tmp/foo\"\n".data)
    ∧ Unix.get_path_from_id envC5 1 2 =
        Unix.specParse (splitOnChar '\n' ("x: 1\ndirectory: \"/tmp/foo\"\n".data))
    ∧ Unix.get_path_from_id envC5 1 2 = .ok "/tmp/foo" := by
  refine ⟨by decide, c5_line_parsing envC5 1 2 outC5 _ rfl (by decide), by decide⟩

/-- Claim C10: a failure while probing the first enumerated volume — in
obtaining its mount-path list, opening a mount path's volume handle, or
reading its serial number — aborts the whole search with that error, for
every environment, in particular regardless of what later volumes (in
`nextVolumes`) would have answered; the resolver never skips a failing
volume and continues. -/
theorem c10_abort_on_probe_failure (env : Windows.Env) (t : Nat) (st : Windows.St)
    (v0 : List UInt16) (h0 : env.findFirstVolume = .ok v0) :
    (∀ e, env.volumePathNamesBuf v0 = .error e →
      (Windows.get_volume_path_name_from_serial_number env t st).1 =
        .err (.VolumePathNames e))
    ∧ (∀ buf n p ps e, env.volumePathNamesBuf v0 = .ok (buf, n) →
        Windows.splitVolumePaths buf n = p :: ps → env.createFile p = .error e →
        (Windows.get_volume_path_name_from_serial_number env t st).1 =
          .err (.VolumeHandle e))
    ∧ (∀ buf n p ps e, env.volumePathNamesBuf v0 = .ok (buf, n) →
        Windows.splitVolumePaths buf n = p :: ps → env.createFile p = .ok () →
        env.fileIdInfo p = .error e →
        (Windows.get_volume_path_name_from_serial_number env t st).1 =
          .err (.FileInformationByHandle e)) := by
  refine ⟨?_, ?_, ?_⟩
  · intro e he
    unfold Windows.get_volume_path_name_from_serial_number
    rw [h0]
    unfold Windows.volumeLoop Windows.get_volume_path_names
    rw [he]
  · intro buf n p ps e hb hs hc
    unfold Windows.get_volume_path_name_from_serial_number
    rw [h0]
    unfold Windows.volumeLoop Windows.get_volume_path_names
    rw [hb]
    dsimp only
    rw [hs]
    unfold Windows.checkPaths Windows.get_volume_serial_number_from_path
      Windows.get_volume_handle_from_path
    rw [hc]
  · intro buf n p ps e hb hs hc hf
    unfold Windows.get_volume_path_name_from_serial_number
    rw [h0]
    unfold Windows.volumeLoop Windows.get_volume_path_names
    rw [hb]
    dsimp only
    rw [hs]
    unfold Windows.checkPaths Windows.get_volume_serial_number_from_path
      Windows.get_volume_handle_from_path
    rw [hc]
    dsimp only
    rw [hf]

/-- Fixture: the first volume's only mount path fails its serial-number
probe, while the second volume's mount path would report serial 9. -/
def envC10 : Windows.Env where
  findFirstVolume := .ok [86]
  nextVolumes := [[87]]
  enumEnd := .noMore
  volumePathNamesBuf := fun v =>
    if v == [86] then .ok ([65, 0], 2) else .ok ([67, 58, 92, 0], 4)
  createFile := fun _ => .ok ()
  fileIdInfo := fun p =>
    if p == [65, 0] then .error ⟨.permissionDenied, "probe failed"⟩ else .ok 9
  openFileById := fun _ _ => .ok ()
  finalPath := fun _ => (0, [], ioDummy)

/-- Claim C10 witness: in the fixture the later volume's mount path would
report the target serial 9, yet the search aborts with the first volume's
probe error. -/
theorem c10_abort_on_probe_failure_witness :
    envC10.fileIdInfo [67, 58, 92, 0] = .ok 9
    ∧ (Windows.get_volume_path_name_from_serial_number envC10 9 st0).1 =
        .err (.FileInformationByHandle ⟨.permissionDenied, "probe failed"⟩) :=
  ⟨by decide,
   (c10_abort_on_probe_failure envC10 9 st0 [86] rfl).2.2 [65, 0] 2 [65, 0] []
     ⟨.permissionDenied, "probe failed"⟩ (by decide) (by decide) (by decide) (by decide)⟩

/-- Candidate mount paths in enumeration order: for each volume in order,
the mount paths decoded from its raw buffer, concatenated. -/
def candidatePaths (raw : List UInt16 → List UInt16 × Nat) :
    List (List UInt16) → List (List UInt16)
  | [] => []
  | v :: vs => Windows.splitVolumePaths (raw v).1 (raw v).2 ++ candidatePaths raw vs

/-- Evaluation of `get_volume_serial_number_from_path` under successful
probes: it reports the probed serial number and leaves the probe volume
handle open. -/
theorem get_vsn_eval (env : Windows.Env) (serial : List UInt16 → Nat)
    (hcf : ∀ p, env.createFile p = .ok ())
    (hfi : ∀ p, env.fileIdInfo p = .ok (serial p)) (p : List UInt16) (st : Windows.St) :
    Windows.get_volume_serial_number_from_path env p st =
      (.ok (serial p), ((st.tick.alloc (Windows.HKind.volume p)).2).tick) := by
  unfold Windows.get_volume_serial_number_from_path Windows.get_volume_handle_from_path
  rw [hcf p]
  dsimp only [Windows.St.alloc]
  rw [hfi p]

/-- Value of the inner mount-path loop under successful probes: the first
path whose serial equals the target, as a `find?`. -/
theorem checkPaths_fst (env : Windows.Env) (serial : List UInt16 → Nat) (t : Nat)
    (hcf : ∀ p, env.createFile p = .ok ())
    (hfi : ∀ p, env.fileIdInfo p = .ok (serial p)) :
    ∀ (ps : List (List UInt16)) (st : Windows.St),
      (Windows.checkPaths env t ps st).1 = .ok (ps.find? (fun p => serial p == t)) := by
  intro ps
  induction ps with
  | nil => intro st; rfl
  | cons p rest ih =>
    intro st
    have hst := get_vsn_eval env serial hcf hfi p st
    unfold Windows.checkPaths
    rw [hst]
    dsimp only
    cases h : (serial p == t) with
    | true => simp [h, List.find?_cons]
    | false => simp [h, List.find?_cons, ih]

/-- Value of the volume loop under successful probes: the first candidate
mount path, in enumeration order over volumes and their mount paths, whose
serial equals the target; the not-found error on exhaustion. -/
theorem volumeLoop_fst (env : Windows.Env) (raw : List UInt16 → List UInt16 × Nat)
    (serial : List UInt16 → Nat) (t : Nat)
    (hbuf : ∀ v, env.volumePathNamesBuf v = .ok (raw v))
    (hcf : ∀ p, env.createFile p = .ok ())
    (hfi : ∀ p, env.fileIdInfo p = .ok (serial p))
    (hend : env.enumEnd = .noMore) :
    ∀ (rest : List (List UInt16)) (v : List UInt16) (fh : Nat) (st : Windows.St),
      (Windows.volumeLoop env t fh v rest st).1 =
        match (candidatePaths raw (v :: rest)).find? (fun p => serial p == t) with
        | some p => .ok p
        | none => .err (.FindVolume ⟨.notFound, "no volume matching the serial number"⟩) := by
  intro rest
  induction rest with
  | nil =>
    intro v fh st
    cases hf : (Windows.splitVolumePaths (raw v).1 (raw v).2).find? (fun p => serial p == t) with
    | some p =>
      unfold Windows.volumeLoop Windows.get_volume_path_names
      rw [hbuf v]
      dsimp only
      rcases hc : Windows.checkPaths env t
          (Windows.splitVolumePaths (raw v).1 (raw v).2) st.tick with ⟨val, st2⟩
      have hval := checkPaths_fst env serial t hcf hfi
        (Windows.splitVolumePaths (raw v).1 (raw v).2) st.tick
      rw [hc] at hval
      dsimp only at hval
      rw [hf] at hval
      subst hval
      simp only [candidatePaths, List.append_nil, hf]
    | none =>
      unfold Windows.volumeLoop Windows.get_volume_path_names
      rw [hbuf v]
      dsimp only
      rcases hc : Windows.checkPaths env t
          (Windows.splitVolumePaths (raw v).1 (raw v).2) st.tick with ⟨val, st2⟩
      have hval := checkPaths_fst env serial t hcf hfi
        (Windows.splitVolumePaths (raw v).1 (raw v).2) st.tick
      rw [hc] at hval
      dsimp only at hval
      rw [hf] at hval
      subst hval
      dsimp only
      rw [hend]
      simp only [candidatePaths, List.append_nil, hf]
  | cons v2 vs ih =>
    intro v fh st
    cases hf : (Windows.splitVolumePaths (raw v).1 (raw v).2).find? (fun p => serial p == t) with
    | some p =>
      unfold Windows.volumeLoop Windows.get_volume_path_names
      rw [hbuf v]
      dsimp only
      rcases hc : Windows.checkPaths env t
          (Windows.splitVolumePaths (raw v).1 (raw v).2) st.tick with ⟨val, st2⟩
      have hval := checkPaths_fst env serial t hcf hfi
        (Windows.splitVolumePaths (raw v).1 (raw v).2) st.tick
      rw [hc] at hval
      dsimp only at hval
      rw [hf] at hval
      subst hval
      simp only [candidatePaths, List.find?_append, hf, Option.or_some]
    | none =>
      unfold Windows.volumeLoop Windows.get_volume_path_names
      rw [hbuf v]
      dsimp only
      rcases hc : Windows.checkPaths env t
          (Windows.splitVolumePaths (raw v).1 (raw v).2) st.tick with ⟨val, st2⟩
      have hval := checkPaths_fst env serial t hcf hfi
        (Windows.splitVolumePaths (raw v).1 (raw v).2) st.tick
      rw [hc] at hval
      dsimp only at hval
      rw [hf] at hval
      subst hval
      dsimp only
      rw [ih v2 fh]
      simp only [candidatePaths, List.find?_append, hf, Option.none_or]

/-- Claim C4: when every probe call succeeds (`raw` describing each
volume's mount-path buffer and `serial` each mount path's reported serial
number), the volume-location step returns the first mount path, in
enumeration order over volumes and their mount paths, whose reported
serial number equals the target; if enumeration is exhausted without a
match, it fails with the not-found error. -/
theorem c4_first_match (env : Windows.Env) (t : Nat) (st : Windows.St) (v0 : List UInt16)
    (raw : List UInt16 → List UInt16 × Nat) (serial : List UInt16 → Nat)
    (hfirst : env.findFirstVolume = .ok v0)
    (hbuf : ∀ v, env.volumePathNamesBuf v = .ok (raw v))
    (hcf : ∀ p, env.createFile p = .ok ())
    (hfi : ∀ p, env.fileIdInfo p = .ok (serial p))
    (hend : env.enumEnd = .noMore) :
    (Windows.get_volume_path_name_from_serial_number env t st).1 =
      match (candidatePaths raw (v0 :: env.nextVolumes)).find? (fun p => serial p == t) with
      | some p => .ok p
      | none => .err (.FindVolume ⟨.notFound, "no volume matching the serial number"⟩) := by
  unfold Windows.get_volume_path_name_from_serial_number
  rw [hfirst]
  dsimp only [Windows.St.alloc]
  exact volumeLoop_fst env raw serial t hbuf hcf hfi hend env.nextVolumes v0 _ _

/-- Fixture: mount-path buffers of the two volumes `[86]` and `[87]`:
volume `[86]` is mounted at `A:\`, volume `[87]` at `B:\` and `C:\`. -/
def raw4 : List UInt16 → List UInt16 × Nat := fun v =>
  if v == [86] then ([65, 58, 92, 0], 4) else ([66, 58, 92, 0, 67, 58, 92, 0], 8)

/-- Fixture: reported serial numbers — 9 at `C:\`, 5 elsewhere. -/
def serial4 : List UInt16 → Nat := fun p => if p == [67, 58, 92, 0] then 9 else 5

/-- Fixture environment with two volumes and three mount paths. -/
def env4 : Windows.Env where
  findFirstVolume := .ok [86]
  nextVolumes := [[87]]
  enumEnd := .noMore
  volumePathNamesBuf := fun v => .ok (raw4 v)
  createFile := fun _ => .ok ()
  fileIdInfo := fun p => .ok (serial4 p)
  openFileById := fun _ _ => .ok ()
  finalPath := fun _ => (0, [], ioDummy)

/-- Claim C4 witness: target serial 9 resolves to the third candidate
mount path `C:\` (the only one reporting 9), and target serial 11 — which
no mount path reports — fails with the not-found error. -/
theorem c4_first_match_witness :
    (Windows.get_volume_path_name_from_serial_number env4 9 st0).1 = .ok [67, 58, 92, 0]
    ∧ (Windows.get_volume_path_name_from_serial_number env4 11 st0).1 =
        .err (.FindVolume ⟨.notFound, "no volume matching the serial number"⟩) :=
  ⟨(c4_first_match env4 9 st0 [86] raw4 serial4 rfl (fun _ => rfl) (fun _ => rfl)
      (fun _ => rfl) rfl).trans (by decide),
   (c4_first_match env4 11 st0 [86] raw4 serial4 rfl (fun _ => rfl) (fun _ => rfl)
      (fun _ => rfl) rfl).trans (by decide)⟩
